import Mathlib

/-!
Shallow embedding of the pipeline coordinator of the Archaeological-frontend
client (src/js/app.js, class ArchaeologicalMapper).

JS numbers are modelled as exact rationals, Math.random() draws as an explicit
stream of rationals in [0,1), the wall clock as an explicit ISO-string
parameter, and each async method as an atomic step function over the mutable
fields of the class.  Network interactions are modelled by an explicit
response value handed to the step; a fetch rejection (network error or
timeout) and a body that fails JSON parsing are distinct constructors, since
the code reacts to both by the same catch clauses.  The boolean instance
fields that the methods set and then restore in their finally blocks
(isProcessing, isUploading) are left unchanged by the atomic steps; the two
flag assignments performed by runAllProcessing before its first await are
exposed separately as runAllEnter.
-/

/-- Metadata of the browser File object held in this.selectedFile. -/
structure FileMeta where
  name : String
  size : ℕ
deriving DecidableEq

/-- The record stored in this.currentImage by uploadToBackend / uploadOffline. -/
structure UploadedImage where
  filename : String
  original_name : String
  image_size : String
  preview_url : String
  upload_timestamp : String
  server_data : Bool
deriving DecidableEq

/-- Segmentation result record (remote response body or offline synthetic). -/
structure SegmentationResult where
  ruins_percentage : ℚ
  vegetation_percentage : ℚ
  water_percentage : ℚ
  pixels_analyzed : ℤ
  image_size : String
  success : Bool
  segmentation_url : Option String
deriving DecidableEq

/-- One artifact entry of a detection result. -/
structure Artifact where
  id : ℤ
  type : String
  confidence : ℚ
  area : ℤ
  center : ℤ × ℤ
  bbox : ℤ × ℤ × ℤ × ℤ
deriving DecidableEq

/-- Detection result record (remote response body or offline synthetic). -/
structure DetectionResult where
  artifacts : List Artifact
  total_detected : ℕ
  success : Bool
  detection_map : Option String
deriving DecidableEq

/-- The object built by generateCombinedStatistics. -/
structure CombinedStatistics where
  timestamp : String
  image_name : String
  ruins_coverage : ℚ
  vegetation_coverage : ℚ
  water_coverage : ℚ
  artifact_count : ℕ
  processing_mode : String
  summary : String
deriving DecidableEq

/-- Body of a successful POST upload response, schema of uploadToBackend.
file_size_mb is a JS number there; 0 models both the absent and the zero
(falsy) value, which the code treats alike. -/
structure UploadResult where
  success : Bool
  filename : String
  original_name : String
  file_size_mb : ℚ
  preview_url : String
  upload_timestamp : String
deriving DecidableEq

/-- The this.processingResults record. -/
structure ProcessingResults where
  segmentation : Option SegmentationResult
  detection : Option DetectionResult
  statistics : Option CombinedStatistics
deriving DecidableEq

/-- The mutable instance fields of ArchaeologicalMapper that the pipeline
steps read or write.  The three layer fields record whether the corresponding
Leaflet layer object is currently non-null. -/
structure AppState where
  baseUrl : String
  selectedFile : Option FileMeta
  currentImage : Option UploadedImage
  processingResults : ProcessingResults
  isOnline : Bool
  isProcessing : Bool
  isUploading : Bool
  runningAllProcess : Bool
  imageOverlay : Bool
  artifactsLayer : Bool
  segmentationLayer : Bool
deriving DecidableEq

/-- Outcome of one fetch to a stage endpoint.  netError covers a rejected
fetch (network failure or timeout); resp carries response.ok and the parsed
body, none meaning response.json() threw. -/
inductive RemoteResponse (α : Type) where
  | netError
  | resp (ok : Bool) (body : Option α)
deriving DecidableEq

/-- Outcome of the fetch issued by checkBackendStatus. -/
inductive ProbeOutcome where
  | netError
  | resp (ok : Bool) (jsonOk : Bool)
deriving DecidableEq

/-- How one invocation of uploadImage / runSegmentation / detectArtifacts
ended: rejected by a guard, ran the remote implementation, fell back to the
offline implementation after a remote failure, or ran offline directly. -/
inductive StageOutcome where
  | noInput
  | busy
  | ranRemote
  | ranRemoteFellBack
  | ranLocal
deriving DecidableEq

/-- How one invocation of runAllProcessing ended.  A remote failure inside
runAllProcessing is caught by its own outer catch, which aborts the remaining
steps without any offline fallback. -/
inductive RunAllOutcome where
  | noInput
  | busy
  | abortedSeg
  | abortedDet
  | completed
deriving DecidableEq

/-- Shared shape of the backend calls in uploadToBackend,
runBackendSegmentation and runBackendDetection: a non-ok status, an
unparsable body, or a body whose success flag is false all throw (giving
none); otherwise the parsed body is returned. -/
def remoteResult {α : Type} (succ : α → Bool) : RemoteResponse α → Option α
  | .netError => none
  | .resp ok body =>
    if ok then
      match body with
      | some r => if succ r then some r else none
      | none => none
    else none

/-- The value this.isOnline receives from checkBackendStatus: true only when
the response is ok and its body parses as JSON (the code awaits
response.json() before setting the flag, so a parse failure lands in the
catch clause). -/
def probeOnline : ProbeOutcome → Bool
  | .netError => false
  | .resp ok jsonOk => ok && jsonOk

/-- Number.prototype.toFixed(d) on a non-negative value, kept as an exact
rational: round half up at d decimal digits. -/
def toFixed (d : ℕ) (q : ℚ) : ℚ := (round (q * 10 ^ d) : ℚ) / 10 ^ d

/-- The artifactTypes array of runOfflineDetection. -/
def artifactTypes : List String :=
  ["Pottery", "Tool", "Structure", "Ceramic", "Bone", "Stone Tool", "Vessel", "Ornament"]

/-- runOfflineSegmentation: the synthetic segmentation record, with the four
Math.random() calls replaced by the draws rnd 0 .. rnd 3 in source order. -/
def runOfflineSegmentation (rnd : ℕ → ℚ) : SegmentationResult :=
  { ruins_percentage := toFixed 2 (rnd 0 * 40 + 20)
    vegetation_percentage := toFixed 2 (rnd 1 * 30 + 10)
    water_percentage := toFixed 2 (rnd 2 * 5 + 1)
    pixels_analyzed := 1000000 + ⌊rnd 3 * 500000⌋
    image_size := "1920x1080"
    success := true
    segmentation_url := none }

/-- One loop iteration of runOfflineDetection; iteration i consumes the nine
draws rnd (1 + 9*i) .. rnd (9 + 9*i) in source order. -/
def mkArtifact (rnd : ℕ → ℚ) (i : ℕ) : Artifact :=
  { id := (i : ℤ) + 1
    type := artifactTypes.getD (⌊rnd (1 + 9 * i) * 8⌋).toNat ""
    confidence := toFixed 3 (rnd (2 + 9 * i) * (3 / 10) + 7 / 10)
    area := ⌊rnd (3 + 9 * i) * 2000 + 500⌋
    center := (⌊rnd (4 + 9 * i) * 1000⌋, ⌊rnd (5 + 9 * i) * 1000⌋)
    bbox := (⌊rnd (6 + 9 * i) * 800⌋, ⌊rnd (7 + 9 * i) * 800⌋,
             ⌊rnd (8 + 9 * i) * 200 + 50⌋, ⌊rnd (9 + 9 * i) * 200 + 50⌋) }

/-- runOfflineDetection: the synthetic detection record; the artifact count
draw is rnd 0. -/
def runOfflineDetection (rnd : ℕ → ℚ) : DetectionResult :=
  let numArtifacts : ℕ := (⌊rnd 0 * 12⌋ + 3).toNat
  let artifacts := (List.range numArtifacts).map (mkArtifact rnd)
  { artifacts := artifacts
    total_detected := artifacts.length
    success := true
    detection_map := none }

/-- generateCombinedStatistics as a function of the fields it reads
(this.currentImage, the two stored results, this.isOnline) and of the clock
reading now = new Date().toISOString().  The JS fallbacks written with the
or-operator collapse absent and zero values identically, which for the
numeric fields coincides with the plain option match. -/
def generateCombinedStatistics (img : Option UploadedImage)
    (seg : Option SegmentationResult) (det : Option DetectionResult)
    (isOnline : Bool) (now : String) : CombinedStatistics :=
  let ruins : ℚ := match seg with | some sg => sg.ruins_percentage | none => 0
  let veg : ℚ := match seg with | some sg => sg.vegetation_percentage | none => 0
  let water : ℚ := match seg with | some sg => sg.water_percentage | none => 0
  let count : ℕ := match det with | some dt => dt.total_detected | none => 0
  let nameStr : String := match img with
    | some im => if im.original_name = "" then "Unknown" else im.original_name
    | none => "Unknown"
  { timestamp := now
    image_name := nameStr
    ruins_coverage := ruins
    vegetation_coverage := veg
    water_coverage := water
    artifact_count := count
    processing_mode := if isOnline then "Online" else "Offline"
    summary := "Analysis complete: " ++ toString ruins ++ "% ruins, "
                 ++ toString count ++ " artifacts" }

/-- The this.currentImage record built by uploadOffline; blobUrl stands for
the opaque URL.createObjectURL result and now for the ISO clock reading. -/
def mkOfflineImage (f : FileMeta) (blobUrl now : String) : UploadedImage :=
  { filename := f.name
    original_name := f.name
    image_size := toString (toFixed 2 ((f.size : ℚ) / (1024 * 1024))) ++ " MB"
    preview_url := blobUrl
    upload_timestamp := now
    server_data := false }

/-- The this.currentImage record built by uploadToBackend from a successful
response body. -/
def mkOnlineImage (f : FileMeta) (r : UploadResult) (baseUrl : String) : UploadedImage :=
  { filename := r.filename
    original_name := r.original_name
    image_size :=
      if r.file_size_mb ≠ 0 then toString r.file_size_mb ++ " MB"
      else toString (round ((f.size : ℚ) / (1024 * 1024))) ++ " MB"
    preview_url := baseUrl ++ r.preview_url
    upload_timestamp := r.upload_timestamp
    server_data := true }

/-- Write a segmentation result into this.processingResults. -/
def storeSegmentation (s : AppState) (r : SegmentationResult) : AppState :=
  { s with processingResults := { s.processingResults with segmentation := some r } }

/-- Write a detection result into this.processingResults. -/
def storeDetection (s : AppState) (r : DetectionResult) : AppState :=
  { s with processingResults := { s.processingResults with detection := some r } }

/-- displayImage: replaces the image overlay and removes the artifacts and
segmentation layers. -/
def displayImageEffect (s : AppState) : AppState :=
  { s with imageOverlay := true, artifactsLayer := false, segmentationLayer := false }

/-- checkBackendStatus as an atomic step: every outcome is handled (the
catch clause absorbs every throw), so the step is a total function and only
this.isOnline changes. -/
def checkBackendStatusStep (s : AppState) (o : ProbeOutcome) : AppState :=
  { s with isOnline := probeOnline o }

/-- uploadImage as an atomic step.  Guards: no selected file, then the
isUploading flag.  Online dispatch on this.isOnline; any throw out of
uploadToBackend is caught, downgrades this.isOnline and reruns uploadOffline.
Both success paths end in displayImage.  The isUploading/isProcessing flags
are set and restored within the call, leaving no net change. -/
def uploadImageStep (s : AppState) (resp : RemoteResponse UploadResult)
    (blobUrl now : String) : AppState × StageOutcome :=
  match s.selectedFile with
  | none => (s, .noInput)
  | some f =>
    if s.isUploading then (s, .busy)
    else if s.isOnline then
      match remoteResult UploadResult.success resp with
      | some r =>
        (displayImageEffect { s with currentImage := some (mkOnlineImage f r s.baseUrl) },
         .ranRemote)
      | none =>
        let sOff := { s with isOnline := false }
        (displayImageEffect { sOff with currentImage := some (mkOfflineImage f blobUrl now) },
         .ranRemoteFellBack)
    else
      (displayImageEffect { s with currentImage := some (mkOfflineImage f blobUrl now) },
       .ranLocal)

/-- runSegmentation as an atomic step.  Guards: no current image, then the
busy check isProcessing and not runningAllProcess.  Remote dispatch needs
this.isOnline and a truthy (non-empty) this.currentImage.filename; a remote
failure is caught, downgrades this.isOnline and stores the offline synthetic
result instead. -/
def runSegmentationStep (s : AppState) (resp : RemoteResponse SegmentationResult)
    (rnd : ℕ → ℚ) : AppState × StageOutcome :=
  match s.currentImage with
  | none => (s, .noInput)
  | some img =>
    if s.isProcessing ∧ ¬ s.runningAllProcess then (s, .busy)
    else if s.isOnline ∧ img.filename ≠ "" then
      match remoteResult SegmentationResult.success resp with
      | some r => (storeSegmentation s r, .ranRemote)
      | none =>
        (storeSegmentation { s with isOnline := false } (runOfflineSegmentation rnd),
         .ranRemoteFellBack)
    else
      (storeSegmentation s (runOfflineSegmentation rnd), .ranLocal)

/-- detectArtifacts as an atomic step, mirroring runSegmentationStep; both
display paths rebuild the artifacts layer. -/
def detectArtifactsStep (s : AppState) (resp : RemoteResponse DetectionResult)
    (rnd : ℕ → ℚ) : AppState × StageOutcome :=
  match s.currentImage with
  | none => (s, .noInput)
  | some img =>
    if s.isProcessing ∧ ¬ s.runningAllProcess then (s, .busy)
    else if s.isOnline ∧ img.filename ≠ "" then
      match remoteResult DetectionResult.success resp with
      | some r => ({ storeDetection s r with artifactsLayer := true }, .ranRemote)
      | none =>
        ({ storeDetection { s with isOnline := false } (runOfflineDetection rnd) with
            artifactsLayer := true },
         .ranRemoteFellBack)
    else
      ({ storeDetection s (runOfflineDetection rnd) with artifactsLayer := true }, .ranLocal)

/-- generateCombinedStatistics as a step: writes the combined record into
this.processingResults.statistics, reading the other fields of the store. -/
def generateCombinedStatisticsStep (s : AppState) (now : String) : AppState :=
  { s with processingResults := { s.processingResults with
      statistics := some (generateCombinedStatistics s.currentImage
        s.processingResults.segmentation s.processingResults.detection
        s.isOnline now) } }

/-- runAllProcessing as an atomic step.  Guards: no current image, then the
plain isProcessing check.  It dispatches segmentation and detection directly
(not through runSegmentation/detectArtifacts); a throw of either backend call
reaches the outer catch, which aborts the remaining steps with no offline
fallback and no mode change.  On full completion the combined statistics are
generated.  The isProcessing/runningAllProcess flags are set and restored
within the call, leaving no net change. -/
def runAllProcessingStep (s : AppState) (segResp : RemoteResponse SegmentationResult)
    (detResp : RemoteResponse DetectionResult) (rnds rndd : ℕ → ℚ)
    (now : String) : AppState × RunAllOutcome :=
  match s.currentImage with
  | none => (s, .noInput)
  | some img =>
    if s.isProcessing then (s, .busy)
    else if s.isOnline ∧ img.filename ≠ "" then
      match remoteResult SegmentationResult.success segResp with
      | none => (s, .abortedSeg)
      | some r1 =>
        match remoteResult DetectionResult.success detResp with
        | none => (storeSegmentation s r1, .abortedDet)
        | some r2 =>
          let s2 := { storeDetection (storeSegmentation s r1) r2 with artifactsLayer := true }
          (generateCombinedStatisticsStep s2 now, .completed)
    else
      let s1 := storeSegmentation s (runOfflineSegmentation rnds)
      let s2 := { storeDetection s1 (runOfflineDetection rndd) with artifactsLayer := true }
      (generateCombinedStatisticsStep s2 now, .completed)

/-- clearResults: removes the artifacts layer and nulls the three entries of
this.processingResults; this.currentImage and this.isOnline are untouched. -/
def clearResultsStep (s : AppState) : AppState :=
  { s with artifactsLayer := false,
           processingResults := { segmentation := none, detection := none, statistics := none } }

/-- The two flag assignments runAllProcessing performs after passing its
guards and before its first await: this is the state visible to any event
handler that fires while the run-all sequence is suspended. -/
def runAllEnter (s : AppState) : AppState :=
  { s with isProcessing := true, runningAllProcess := true }

/-- One user- or network-triggered operation of the coordinator. -/
inductive Event where
  | probe (o : ProbeOutcome)
  | selectFile (f : FileMeta)
  | upload (resp : RemoteResponse UploadResult) (blobUrl now : String)
  | segment (resp : RemoteResponse SegmentationResult) (rnd : ℕ → ℚ)
  | detect (resp : RemoteResponse DetectionResult) (rnd : ℕ → ℚ)
  | runAll (segResp : RemoteResponse SegmentationResult)
      (detResp : RemoteResponse DetectionResult) (rnds rndd : ℕ → ℚ) (now : String)
  | combine (now : String)
  | clearAll

/-- Global transition function: the effect of one operation on the instance
state. -/
def step (s : AppState) : Event → AppState
  | .probe o => checkBackendStatusStep s o
  | .selectFile f => { s with selectedFile := some f }
  | .upload resp blobUrl now => (uploadImageStep s resp blobUrl now).1
  | .segment resp rnd => (runSegmentationStep s resp rnd).1
  | .detect resp rnd => (detectArtifactsStep s resp rnd).1
  | .runAll sr dr rs rd now => (runAllProcessingStep s sr dr rs rd now).1
  | .combine now => generateCombinedStatisticsStep s now
  | .clearAll => clearResultsStep s

/-- Whether an event is the connectivity probe. -/
def Event.isProbe : Event → Bool
  | .probe _ => true
  | _ => false

/-- Whether a stage invocation issued a network request to the remote
implementation. -/
def StageOutcome.attemptedRemote : StageOutcome → Bool
  | .ranRemote => true
  | .ranRemoteFellBack => true
  | _ => false

/-- A concrete selected file used by the concrete test states. -/
def sampleFile : FileMeta := { name := "site1.jpg", size := 2516582 }

/-- A concrete uploaded-image record. -/
def sampleImage : UploadedImage :=
  { filename := "site1.jpg", original_name := "site1.jpg", image_size := "2.40 MB",
    preview_url := "blob:site1", upload_timestamp := "2024-01-01T00:00:00.000Z",
    server_data := false }

/-- A concrete stored segmentation result. -/
def sampleSeg : SegmentationResult :=
  { ruins_percentage := 42, vegetation_percentage := 20, water_percentage := 3,
    pixels_analyzed := 1200000, image_size := "1920x1080", success := true,
    segmentation_url := none }

/-- A concrete stored detection result. -/
def sampleDet : DetectionResult :=
  { artifacts := [{ id := 1, type := "Pottery", confidence := 9 / 10, area := 800,
                    center := (100, 200), bbox := (10, 20, 60, 60) }],
    total_detected := 1, success := true, detection_map := none }

/-- An idle offline state with an image uploaded and both analysis results
present. -/
def sampleState : AppState :=
  { baseUrl := "http://localhost:5000", selectedFile := some sampleFile,
    currentImage := some sampleImage,
    processingResults := { segmentation := some sampleSeg, detection := some sampleDet,
                           statistics := none },
    isOnline := false, isProcessing := false, isUploading := false,
    runningAllProcess := false, imageOverlay := true, artifactsLayer := true,
    segmentationLayer := false }

/-- The same state with the backend reachable. -/
def onlineState : AppState := { sampleState with isOnline := true }

/-- The same state while an independent (non run-all) operation is in
flight. -/
def busyState : AppState := { sampleState with isProcessing := true }

/-- The constant stream drawing one half for every Math.random() call. -/
def halfStream : ℕ → ℚ := fun _ => 1 / 2

/-- C9: clearResults leaves the three analysis slots absent while touching
neither the mode flag nor the uploaded-image record. -/
theorem C9_clearResults_frame (s : AppState) :
    (clearResultsStep s).processingResults.segmentation = none
    ∧ (clearResultsStep s).processingResults.detection = none
    ∧ (clearResultsStep s).processingResults.statistics = none
    ∧ (clearResultsStep s).isOnline = s.isOnline
    ∧ (clearResultsStep s).currentImage = s.currentImage :=
  ⟨rfl, rfl, rfl, rfl, rfl⟩

/-- C10: generateCombinedStatistics is total with no presence precondition:
with neither result present every coverage and the artifact count are 0 and
the record is still fully populated; whenever a detection result is present
the artifact count equals its total_detected exactly. -/
theorem C10_generateCombinedStatistics_total :
    (∀ (img : Option UploadedImage) (mode : Bool) (t : String),
      (generateCombinedStatistics img none none mode t).ruins_coverage = 0
      ∧ (generateCombinedStatistics img none none mode t).vegetation_coverage = 0
      ∧ (generateCombinedStatistics img none none mode t).water_coverage = 0
      ∧ (generateCombinedStatistics img none none mode t).artifact_count = 0
      ∧ (generateCombinedStatistics img none none mode t).timestamp = t
      ∧ (generateCombinedStatistics img none none mode t).summary
          = "Analysis complete: 0% ruins, 0 artifacts")
    ∧ ∀ (img : Option UploadedImage) (seg : Option SegmentationResult)
        (det : DetectionResult) (mode : Bool) (t : String),
        (generateCombinedStatistics img seg (some det) mode t).artifact_count
          = det.total_detected :=
  ⟨fun _ _ _ => ⟨rfl, rfl, rfl, rfl, rfl, rfl⟩, fun _ _ _ _ _ => rfl⟩

/-- C6: counterexample — a success (ok) response whose body fails JSON
parsing does not set Online mode: checkBackendStatus awaits response.json()
before setting this.isOnline, so the parse failure lands in the catch clause
and the mode ends up Offline, refuting the clause that a success response
sets Online mode. -/
theorem C6_probe_success_response_bad_body_cex :
    (checkBackendStatusStep onlineState (.resp true false)).isOnline = false := rfl

/-- C6 (amended): the connectivity probe never throws (it is a total
function of the fetch outcome) and sets Online exactly when the response is
ok and its body parses as JSON; every other outcome — network error,
timeout, non-success status, or an ok response with an unparsable body —
sets Offline. -/
theorem C6_probe_online_iff (s : AppState) (o : ProbeOutcome) :
    (checkBackendStatusStep s o).isOnline = true ↔ o = .resp true true := by
  cases o with
  | netError => simp [checkBackendStatusStep, probeOnline]
  | resp ok jsonOk => cases ok <;> cases jsonOk <;> simp [checkBackendStatusStep, probeOnline]

/-- C2: counterexample — generateCombinedStatistics embeds the current
wall-clock ISO string in its timestamp field, so two calls with an unchanged
ResultStore but different clock readings produce different CombinedSummary
values, refuting byte-level idempotence. -/
theorem C2_combine_timestamp_cex :
    (generateCombinedStatisticsStep (generateCombinedStatisticsStep sampleState
        "2024-01-01T00:00:00.000Z") "2024-01-01T00:00:01.000Z").processingResults.statistics
      ≠ (generateCombinedStatisticsStep sampleState
        "2024-01-01T00:00:00.000Z").processingResults.statistics := by
  decide

/-- C2 (amended): calling generateCombinedStatistics twice with an unchanged
ResultStore yields summaries that agree on every field except the embedded
timestamp, and are byte-identical exactly when the two clock readings
coincide. -/
theorem C2_combine_idempotent_up_to_timestamp (s : AppState) (t1 t2 : String) :
    ∃ a b, (generateCombinedStatisticsStep s t1).processingResults.statistics = some a
      ∧ (generateCombinedStatisticsStep (generateCombinedStatisticsStep s t1)
          t2).processingResults.statistics = some b
      ∧ a.timestamp = t1 ∧ b.timestamp = t2
      ∧ a.image_name = b.image_name ∧ a.ruins_coverage = b.ruins_coverage
      ∧ a.vegetation_coverage = b.vegetation_coverage ∧ a.water_coverage = b.water_coverage
      ∧ a.artifact_count = b.artifact_count ∧ a.processing_mode = b.processing_mode
      ∧ a.summary = b.summary ∧ (t1 = t2 → a = b) := by
  refine ⟨_, _, rfl, rfl, rfl, rfl, rfl, rfl, rfl, rfl, rfl, rfl, rfl, ?_⟩
  rintro rfl
  rfl

/-- C1: counterexample — a successful (offline-path) upload completes with
outcome ranLocal yet both previously stored analysis results are still
present afterwards: uploadImage never touches this.processingResults, it only
replaces the image and clears rendered layers, refuting the claim that the
three result slots are absent after every successful upload. -/
theorem C1_upload_retains_results_cex :
    (uploadImageStep sampleState .netError "blob:new" "2024-01-02T00:00:00.000Z").2
        = .ranLocal
    ∧ (uploadImageStep sampleState .netError "blob:new"
        "2024-01-02T00:00:00.000Z").1.processingResults.segmentation = some sampleSeg
    ∧ (uploadImageStep sampleState .netError "blob:new"
        "2024-01-02T00:00:00.000Z").1.processingResults.detection = some sampleDet :=
  ⟨rfl, rfl, rfl⟩

/-- C1 (amended): completing upload(file) with a selected file replaces
UploadedImage wholesale and clears the previously rendered artifact and
segmentation overlays, but leaves the prior SegmentationResult,
DetectionResult and CombinedSummary entries in the ResultStore unchanged (on
the online path, the offline path, and the online-failure fallback path
alike). -/
theorem C1_upload_replaces_image_retains_results (s : AppState)
    (resp : RemoteResponse UploadResult) (blobUrl now : String) (f : FileMeta)
    (hf : s.selectedFile = some f) (hu : s.isUploading = false) :
    (uploadImageStep s resp blobUrl now).1.processingResults = s.processingResults
    ∧ (uploadImageStep s resp blobUrl now).1.currentImage ≠ none
    ∧ (uploadImageStep s resp blobUrl now).1.artifactsLayer = false
    ∧ (uploadImageStep s resp blobUrl now).1.segmentationLayer = false := by
  unfold uploadImageStep
  rw [hf]
  cases hon : s.isOnline <;>
    simp only [hu, hon, Bool.false_eq_true, if_false, if_true] <;>
    [skip; cases remoteResult UploadResult.success resp] <;>
    simp [displayImageEffect]

/-- C1 (amended) witness at a concrete offline state. -/
theorem C1_upload_replaces_image_retains_results_witness :
    sampleState.selectedFile = some sampleFile ∧ sampleState.isUploading = false
    ∧ ((uploadImageStep sampleState .netError "b" "t").1.processingResults
          = sampleState.processingResults
      ∧ (uploadImageStep sampleState .netError "b" "t").1.currentImage ≠ none
      ∧ (uploadImageStep sampleState .netError "b" "t").1.artifactsLayer = false
      ∧ (uploadImageStep sampleState .netError "b" "t").1.segmentationLayer = false) :=
  ⟨rfl, rfl, C1_upload_replaces_image_retains_results sampleState .netError "b" "t"
    sampleFile rfl rfl⟩

/-- The single-stage busy guard passes whenever the condition
isProcessing-and-not-runningAllProcess fails, for segmentation. -/
theorem runSegmentationStep_snd_ne_busy (s : AppState)
    (resp : RemoteResponse SegmentationResult) (rnd : ℕ → ℚ) (img : UploadedImage)
    (him : s.currentImage = some img)
    (h : ¬(s.isProcessing ∧ ¬ s.runningAllProcess)) :
    (runSegmentationStep s resp rnd).2 ≠ .busy := by
  simp only [runSegmentationStep, him]
  rw [if_neg h]
  by_cases hon : s.isOnline ∧ img.filename ≠ ""
  · rw [if_pos hon]
    cases hr : remoteResult SegmentationResult.success resp <;> simp [hr]
  · rw [if_neg hon]
    simp

/-- The single-stage busy guard passes whenever the condition
isProcessing-and-not-runningAllProcess fails, for detection. -/
theorem detectArtifactsStep_snd_ne_busy (s : AppState)
    (resp : RemoteResponse DetectionResult) (rnd : ℕ → ℚ) (img : UploadedImage)
    (him : s.currentImage = some img)
    (h : ¬(s.isProcessing ∧ ¬ s.runningAllProcess)) :
    (detectArtifactsStep s resp rnd).2 ≠ .busy := by
  simp only [detectArtifactsStep, him]
  rw [if_neg h]
  by_cases hon : s.isOnline ∧ img.filename ≠ ""
  · rw [if_pos hon]
    cases hr : remoteResult DetectionResult.success resp <;> simp [hr]
  · rw [if_neg hon]
    simp

/-- C3: counterexample — in the state runAllProcessing reaches right after
acquiring its flags (isProcessing and runningAllProcess both true), an
independently invoked runSegmentation is not rejected: it runs to completion
(outcome ranLocal) and writes the segmentation slot, because the busy check
isProcessing-and-not-runningAllProcess is disabled by the global
runningAllProcess flag for every caller, not only for the stages the run-all
sequence invokes itself. -/
theorem C3_stage_during_runAll_not_rejected_cex :
    (runSegmentationStep (runAllEnter sampleState) .netError halfStream).2 = .ranLocal
    ∧ (runSegmentationStep (runAllEnter sampleState)
        .netError halfStream).1.processingResults.segmentation
        = some (runOfflineSegmentation halfStream) :=
  ⟨rfl, rfl⟩

/-- C3 (amended): the mutual-exclusion check of the single-stage calls is
keyed on the global runningAllProcess flag, not on the caller: while
runAllProcessing is active every single-stage invocation (independent or
internal) passes the busy check and executes, and the StageBusy rejection
(with no state mutation) occurs exactly when a non-run-all operation is in
flight. -/
theorem C3_busy_check_keyed_on_global_flag (s : AppState)
    (segResp : RemoteResponse SegmentationResult)
    (detResp : RemoteResponse DetectionResult) (rs rd : ℕ → ℚ)
    (img : UploadedImage) (him : s.currentImage = some img) :
    (s.runningAllProcess = true →
      (runSegmentationStep s segResp rs).2 ≠ .busy
      ∧ (detectArtifactsStep s detResp rd).2 ≠ .busy)
    ∧ (s.isProcessing = true → s.runningAllProcess = false →
      runSegmentationStep s segResp rs = (s, .busy)
      ∧ detectArtifactsStep s detResp rd = (s, .busy)) := by
  constructor
  · intro hra
    have h : ¬(s.isProcessing ∧ ¬ s.runningAllProcess) := by simp [hra]
    exact ⟨runSegmentationStep_snd_ne_busy s segResp rs img him h,
           detectArtifactsStep_snd_ne_busy s detResp rd img him h⟩
  · intro hp hra
    have h : s.isProcessing ∧ ¬ s.runningAllProcess := by simp [hp, hra]
    constructor
    · simp only [runSegmentationStep, him]
      rw [if_pos h]
    · simp only [detectArtifactsStep, him]
      rw [if_pos h]

/-- C3 (amended) witness: the exemption at a concrete mid-run-all state and
the rejection at a concrete independently-busy state. -/
theorem C3_busy_check_keyed_on_global_flag_witness :
    ((runSegmentationStep (runAllEnter sampleState) .netError halfStream).2 ≠ .busy
      ∧ (detectArtifactsStep (runAllEnter sampleState) .netError halfStream).2 ≠ .busy)
    ∧ (runSegmentationStep busyState .netError halfStream = (busyState, .busy)
      ∧ detectArtifactsStep busyState .netError halfStream = (busyState, .busy)) :=
  ⟨(C3_busy_check_keyed_on_global_flag (runAllEnter sampleState) .netError .netError
      halfStream halfStream sampleImage rfl).1 rfl,
   (C3_busy_check_keyed_on_global_flag busyState .netError .netError
      halfStream halfStream sampleImage rfl).2 rfl rfl⟩

/-- C4: with the mode already Offline, none of the three stage entry points
ever attempts the remote implementation — every invocation is either
rejected by a guard or runs only the local synthetic path. -/
theorem C4_offline_never_attempts_remote (s : AppState)
    (upResp : RemoteResponse UploadResult) (segResp : RemoteResponse SegmentationResult)
    (detResp : RemoteResponse DetectionResult) (rs rd : ℕ → ℚ) (blobUrl now : String)
    (h : s.isOnline = false) :
    (uploadImageStep s upResp blobUrl now).2.attemptedRemote = false
    ∧ (runSegmentationStep s segResp rs).2.attemptedRemote = false
    ∧ (detectArtifactsStep s detResp rd).2.attemptedRemote = false := by
  refine ⟨?_, ?_, ?_⟩
  · cases hsel : s.selectedFile with
    | none => simp [uploadImageStep, hsel, StageOutcome.attemptedRemote]
    | some f =>
      simp only [uploadImageStep, hsel, h]
      split <;> simp [StageOutcome.attemptedRemote]
  · cases him : s.currentImage with
    | none => simp [runSegmentationStep, him, StageOutcome.attemptedRemote]
    | some img =>
      simp only [runSegmentationStep, him]
      have hon : ¬(s.isOnline ∧ img.filename ≠ "") := by simp [h]
      rw [if_neg hon]
      split <;> simp [StageOutcome.attemptedRemote]
  · cases him : s.currentImage with
    | none => simp [detectArtifactsStep, him, StageOutcome.attemptedRemote]
    | some img =>
      simp only [detectArtifactsStep, him]
      have hon : ¬(s.isOnline ∧ img.filename ≠ "") := by simp [h]
      rw [if_neg hon]
      split <;> simp [StageOutcome.attemptedRemote]

/-- C4 witness at a concrete offline state. -/
theorem C4_offline_never_attempts_remote_witness :
    sampleState.isOnline = false
    ∧ (uploadImageStep sampleState .netError "b" "t").2.attemptedRemote = false
    ∧ (runSegmentationStep sampleState .netError halfStream).2.attemptedRemote = false
    ∧ (detectArtifactsStep sampleState .netError halfStream).2.attemptedRemote = false :=
  ⟨rfl, C4_offline_never_attempts_remote sampleState .netError .netError .netError
    halfStream halfStream "b" "t" rfl⟩

/-- C5: on every remote stage failure (network error, non-success status,
unparsable body, or a success:false body — all the cases remoteResult maps
to none) during a standalone segmentation or detection call, the mode is
downgraded to Offline and the call still completes normally (outcome
ranRemoteFellBack, no exception: the step is a total function), storing the
offline synthetic result, which carries success = true. -/
theorem C5_remote_failure_downgrades_and_falls_back (s : AppState)
    (segResp : RemoteResponse SegmentationResult)
    (detResp : RemoteResponse DetectionResult) (rs rd : ℕ → ℚ)
    (img : UploadedImage) (him : s.currentImage = some img)
    (hfn : img.filename ≠ "") (hon : s.isOnline = true)
    (hbusy : ¬(s.isProcessing ∧ ¬ s.runningAllProcess))
    (hsf : remoteResult SegmentationResult.success segResp = none)
    (hdf : remoteResult DetectionResult.success detResp = none) :
    ((runSegmentationStep s segResp rs).1.isOnline = false
      ∧ (runSegmentationStep s segResp rs).2 = .ranRemoteFellBack
      ∧ (runSegmentationStep s segResp rs).1.processingResults.segmentation
          = some (runOfflineSegmentation rs)
      ∧ (runOfflineSegmentation rs).success = true)
    ∧ ((detectArtifactsStep s detResp rd).1.isOnline = false
      ∧ (detectArtifactsStep s detResp rd).2 = .ranRemoteFellBack
      ∧ (detectArtifactsStep s detResp rd).1.processingResults.detection
          = some (runOfflineDetection rd)
      ∧ (runOfflineDetection rd).success = true) := by
  constructor
  · simp only [runSegmentationStep, him]
    rw [if_neg hbusy, if_pos ⟨hon, hfn⟩, hsf]
    exact ⟨rfl, rfl, rfl, rfl⟩
  · simp only [detectArtifactsStep, him]
    rw [if_neg hbusy, if_pos ⟨hon, hfn⟩, hdf]
    exact ⟨rfl, rfl, rfl, rfl⟩

/-- C5 witness: a concrete online idle state with a network error on both
stage endpoints. -/
theorem C5_remote_failure_downgrades_and_falls_back_witness :
    onlineState.currentImage = some sampleImage ∧ sampleImage.filename ≠ ""
    ∧ onlineState.isOnline = true
    ∧ (((runSegmentationStep onlineState .netError halfStream).1.isOnline = false
        ∧ (runSegmentationStep onlineState .netError halfStream).2 = .ranRemoteFellBack
        ∧ (runSegmentationStep onlineState
            .netError halfStream).1.processingResults.segmentation
            = some (runOfflineSegmentation halfStream)
        ∧ (runOfflineSegmentation halfStream).success = true)
      ∧ ((detectArtifactsStep onlineState .netError halfStream).1.isOnline = false
        ∧ (detectArtifactsStep onlineState .netError halfStream).2 = .ranRemoteFellBack
        ∧ (detectArtifactsStep onlineState
            .netError halfStream).1.processingResults.detection
            = some (runOfflineDetection halfStream)
        ∧ (runOfflineDetection halfStream).success = true)) :=
  ⟨rfl, by decide, rfl,
   C5_remote_failure_downgrades_and_falls_back onlineState .netError .netError
     halfStream halfStream sampleImage rfl (by decide) rfl (by decide) rfl rfl⟩

/-- uploadImage can only preserve or lower the mode flag, never raise it. -/
theorem uploadImageStep_isOnline_mono (s : AppState) (resp : RemoteResponse UploadResult)
    (blobUrl now : String) :
    (uploadImageStep s resp blobUrl now).1.isOnline = true → s.isOnline = true := by
  cases hsel : s.selectedFile with
  | none => simp [uploadImageStep, hsel]
  | some f =>
    simp only [uploadImageStep, hsel]
    by_cases hu : s.isUploading = true
    · rw [if_pos hu]
      exact fun h => h
    · rw [if_neg hu]
      by_cases hon : s.isOnline = true
      · intro _
        exact hon
      · rw [if_neg hon]
        simp [displayImageEffect]

/-- runSegmentation can only preserve or lower the mode flag, never raise
it. -/
theorem runSegmentationStep_isOnline_mono (s : AppState)
    (resp : RemoteResponse SegmentationResult) (rnd : ℕ → ℚ) :
    (runSegmentationStep s resp rnd).1.isOnline = true → s.isOnline = true := by
  cases him : s.currentImage with
  | none => simp [runSegmentationStep, him]
  | some img =>
    simp only [runSegmentationStep, him]
    by_cases hb : s.isProcessing ∧ ¬ s.runningAllProcess
    · rw [if_pos hb]
      exact fun h => h
    · rw [if_neg hb]
      by_cases hon : s.isOnline ∧ img.filename ≠ ""
      · intro _
        exact hon.1
      · rw [if_neg hon]
        simp [storeSegmentation]

/-- detectArtifacts can only preserve or lower the mode flag, never raise
it. -/
theorem detectArtifactsStep_isOnline_mono (s : AppState)
    (resp : RemoteResponse DetectionResult) (rnd : ℕ → ℚ) :
    (detectArtifactsStep s resp rnd).1.isOnline = true → s.isOnline = true := by
  cases him : s.currentImage with
  | none => simp [detectArtifactsStep, him]
  | some img =>
    simp only [detectArtifactsStep, him]
    by_cases hb : s.isProcessing ∧ ¬ s.runningAllProcess
    · rw [if_pos hb]
      exact fun h => h
    · rw [if_neg hb]
      by_cases hon : s.isOnline ∧ img.filename ≠ ""
      · intro _
        exact hon.1
      · rw [if_neg hon]
        simp [storeDetection]

/-- runAllProcessing never writes the mode flag at all. -/
theorem runAllProcessingStep_isOnline_eq (s : AppState)
    (segResp : RemoteResponse SegmentationResult)
    (detResp : RemoteResponse DetectionResult) (rs rd : ℕ → ℚ) (now : String) :
    (runAllProcessingStep s segResp detResp rs rd now).1.isOnline = s.isOnline := by
  cases him : s.currentImage with
  | none => simp [runAllProcessingStep, him]
  | some img =>
    simp only [runAllProcessingStep, him]
    by_cases hb : s.isProcessing = true
    · rw [if_pos hb]
    · rw [if_neg hb]
      by_cases hon : s.isOnline ∧ img.filename ≠ ""
      · rw [if_pos hon]
        cases hr1 : remoteResult SegmentationResult.success segResp with
        | none => simp
        | some r1 =>
          cases hr2 : remoteResult DetectionResult.success detResp with
          | none => simp [storeSegmentation]
          | some r2 =>
            simp [generateCombinedStatisticsStep, storeDetection, storeSegmentation]
      · rw [if_neg hon]
        simp [generateCombinedStatisticsStep, storeDetection, storeSegmentation]

/-- C8: mode is never auto-upgraded — for every state and every non-probe
operation (select, upload, segment, detect, run-all, combine, clear), the
step cannot turn the mode flag from Offline to Online, and an already
Offline mode stays Offline (the downgrade in the fallback paths is a no-op
there); only the connectivity probe can set Online. -/
theorem C8_mode_never_auto_upgraded (s : AppState) (e : Event)
    (hp : e.isProbe = false) :
    ((step s e).isOnline = true → s.isOnline = true)
    ∧ (s.isOnline = false → (step s e).isOnline = false) := by
  have key : (step s e).isOnline = true → s.isOnline = true := by
    cases e with
    | probe o => simp [Event.isProbe] at hp
    | selectFile f => exact fun h => h
    | upload resp b n => exact uploadImageStep_isOnline_mono s resp b n
    | segment resp rnd => exact runSegmentationStep_isOnline_mono s resp rnd
    | detect resp rnd => exact detectArtifactsStep_isOnline_mono s resp rnd
    | runAll sr dr rs rd now =>
      intro h
      rw [show (step s (Event.runAll sr dr rs rd now)).isOnline = s.isOnline from
        runAllProcessingStep_isOnline_eq s sr dr rs rd now] at h
      exact h
    | combine now => exact fun h => h
    | clearAll => exact fun h => h
  refine ⟨key, fun hoff => ?_⟩
  cases h2 : (step s e).isOnline with
  | false => rfl
  | true => exact absurd (key h2) (by simp [hoff])

/-- C8 witness at a concrete offline state and a concrete non-probe event. -/
theorem C8_mode_never_auto_upgraded_witness :
    Event.isProbe Event.clearAll = false
    ∧ ((step sampleState Event.clearAll).isOnline = true → sampleState.isOnline = true)
    ∧ (sampleState.isOnline = false → (step sampleState Event.clearAll).isOnline = false) :=
  ⟨rfl, C8_mode_never_auto_upgraded sampleState Event.clearAll rfl⟩

/-- Rounding to a nearer integer respects a strict integer upper bound. -/
theorem round_le_int (x : ℚ) (M : ℤ) (h : x < M) : round x ≤ M := by
  rw [round_eq]
  have h1 : ⌊x + 1 / 2⌋ < M + 1 := by
    apply Int.floor_lt.mpr
    push_cast
    linarith
  omega

/-- Rounding to a nearer integer respects an integer lower bound. -/
theorem int_le_round (m : ℤ) (x : ℚ) (h : (m : ℚ) ≤ x) : m ≤ round x := by
  rw [round_eq]
  apply Int.le_floor.mpr
  linarith

/-- toFixed keeps a value between integer bounds on its scaled argument. -/
theorem toFixed_bounds (d : ℕ) (q : ℚ) (m M : ℤ)
    (h1 : (m : ℚ) ≤ q * 10 ^ d) (h2 : q * 10 ^ d < (M : ℚ)) :
    (m : ℚ) / 10 ^ d ≤ toFixed d q ∧ toFixed d q ≤ (M : ℚ) / 10 ^ d := by
  have hpow : (0 : ℚ) < 10 ^ d := by positivity
  have lo : (m : ℚ) ≤ ((round (q * 10 ^ d) : ℤ) : ℚ) := by
    exact_mod_cast int_le_round m (q * 10 ^ d) h1
  have hi : ((round (q * 10 ^ d) : ℤ) : ℚ) ≤ (M : ℚ) := by
    exact_mod_cast round_le_int (q * 10 ^ d) M h2
  unfold toFixed
  exact ⟨div_le_div_of_nonneg_right lo hpow.le, div_le_div_of_nonneg_right hi hpow.le⟩

/-- The offline segmentation percentages stay in their stated ranges and the
record is marked successful. -/
theorem runOfflineSegmentation_bounds (rnd : ℕ → ℚ)
    (h : ∀ n, 0 ≤ rnd n ∧ rnd n < 1) :
    20 ≤ (runOfflineSegmentation rnd).ruins_percentage
    ∧ (runOfflineSegmentation rnd).ruins_percentage ≤ 60
    ∧ 10 ≤ (runOfflineSegmentation rnd).vegetation_percentage
    ∧ (runOfflineSegmentation rnd).vegetation_percentage ≤ 40
    ∧ 1 ≤ (runOfflineSegmentation rnd).water_percentage
    ∧ (runOfflineSegmentation rnd).water_percentage ≤ 6
    ∧ (runOfflineSegmentation rnd).success = true := by
  obtain ⟨h0, h0'⟩ := h 0
  obtain ⟨h1, h1'⟩ := h 1
  obtain ⟨h2, h2'⟩ := h 2
  have r := toFixed_bounds 2 (rnd 0 * 40 + 20) 2000 6000
    (by norm_num; nlinarith) (by norm_num; nlinarith)
  have v := toFixed_bounds 2 (rnd 1 * 30 + 10) 1000 4000
    (by norm_num; nlinarith) (by norm_num; nlinarith)
  have w := toFixed_bounds 2 (rnd 2 * 5 + 1) 100 600
    (by norm_num; nlinarith) (by norm_num; nlinarith)
  norm_num at r v w
  exact ⟨r.1, r.2, v.1, v.2, w.1, w.2, rfl⟩

/-- The offline detection produces between 3 and 14 artifacts and a
successful record whose total equals the list length. -/
theorem runOfflineDetection_length (rnd : ℕ → ℚ)
    (h : ∀ n, 0 ≤ rnd n ∧ rnd n < 1) :
    3 ≤ (runOfflineDetection rnd).artifacts.length
    ∧ (runOfflineDetection rnd).artifacts.length ≤ 14
    ∧ (runOfflineDetection rnd).total_detected = (runOfflineDetection rnd).artifacts.length
    ∧ (runOfflineDetection rnd).success = true := by
  obtain ⟨h0, h0'⟩ := h 0
  have hf0 : 0 ≤ ⌊rnd 0 * 12⌋ := Int.le_floor.mpr (by push_cast; nlinarith)
  have hf1 : ⌊rnd 0 * 12⌋ < 12 := Int.floor_lt.mpr (by push_cast; nlinarith)
  have hlen : (runOfflineDetection rnd).artifacts.length = (⌊rnd 0 * 12⌋ + 3).toNat := by
    simp [runOfflineDetection]
  refine ⟨?_, ?_, rfl, rfl⟩
  · rw [hlen]
    omega
  · rw [hlen]
    omega

/-- Looking up any index below 8 in the fixed category array yields one of
its members. -/
theorem artifactTypes_getD_mem (i : ℕ) (h : i < 8) :
    artifactTypes.getD i "" ∈ artifactTypes := by
  interval_cases i <;> decide

/-- Every synthetic artifact type is drawn from the fixed 8-category set. -/
theorem mkArtifact_type_mem (rnd : ℕ → ℚ) (h : ∀ n, 0 ≤ rnd n ∧ rnd n < 1) (i : ℕ) :
    (mkArtifact rnd i).type ∈ artifactTypes := by
  obtain ⟨hb, hb'⟩ := h (1 + 9 * i)
  have hf0 : 0 ≤ ⌊rnd (1 + 9 * i) * 8⌋ := Int.le_floor.mpr (by push_cast; nlinarith)
  have hf1 : ⌊rnd (1 + 9 * i) * 8⌋ < 8 := Int.floor_lt.mpr (by push_cast; nlinarith)
  have hidx : (⌊rnd (1 + 9 * i) * 8⌋).toNat < 8 := by omega
  exact artifactTypes_getD_mem _ hidx

/-- Every synthetic artifact confidence lies in the interval from 0.7 to 1. -/
theorem mkArtifact_confidence_bounds (rnd : ℕ → ℚ)
    (h : ∀ n, 0 ≤ rnd n ∧ rnd n < 1) (i : ℕ) :
    7 / 10 ≤ (mkArtifact rnd i).confidence ∧ (mkArtifact rnd i).confidence ≤ 1 := by
  obtain ⟨hb, hb'⟩ := h (2 + 9 * i)
  have c := toFixed_bounds 3 (rnd (2 + 9 * i) * (3 / 10) + 7 / 10) 700 1000
    (by norm_num; nlinarith) (by norm_num; nlinarith)
  norm_num at c
  exact c

/-- C7: every offline synthetic result obeys the stated bounds — ruins in
20 to 60, vegetation in 10 to 40, water in 1 to 6, between 3 and 14
artifacts each with a type from the fixed 8-category set and confidence in
0.7 to 1 — and both records carry success = true with every schema field
populated, for any draw stream in the unit interval. -/
theorem C7_offline_synthetic_bounds (rnd : ℕ → ℚ)
    (h : ∀ n, 0 ≤ rnd n ∧ rnd n < 1) :
    (20 ≤ (runOfflineSegmentation rnd).ruins_percentage
      ∧ (runOfflineSegmentation rnd).ruins_percentage ≤ 60)
    ∧ (10 ≤ (runOfflineSegmentation rnd).vegetation_percentage
      ∧ (runOfflineSegmentation rnd).vegetation_percentage ≤ 40)
    ∧ (1 ≤ (runOfflineSegmentation rnd).water_percentage
      ∧ (runOfflineSegmentation rnd).water_percentage ≤ 6)
    ∧ (runOfflineSegmentation rnd).success = true
    ∧ (3 ≤ (runOfflineDetection rnd).artifacts.length
      ∧ (runOfflineDetection rnd).artifacts.length ≤ 14)
    ∧ (runOfflineDetection rnd).total_detected = (runOfflineDetection rnd).artifacts.length
    ∧ (runOfflineDetection rnd).success = true
    ∧ ∀ a ∈ (runOfflineDetection rnd).artifacts,
        a.type ∈ artifactTypes ∧ 7 / 10 ≤ a.confidence ∧ a.confidence ≤ 1 := by
  obtain ⟨hr1, hr2, hv1, hv2, hw1, hw2, hsucc⟩ := runOfflineSegmentation_bounds rnd h
  obtain ⟨hl1, hl2, htd, hdsucc⟩ := runOfflineDetection_length rnd h
  refine ⟨⟨hr1, hr2⟩, ⟨hv1, hv2⟩, ⟨hw1, hw2⟩, hsucc, ⟨hl1, hl2⟩, htd, hdsucc, ?_⟩
  intro a ha
  have hmem : a ∈ (List.range ((⌊rnd 0 * 12⌋ + 3).toNat)).map (mkArtifact rnd) := ha
  obtain ⟨i, _, rfl⟩ := List.mem_map.mp hmem
  exact ⟨mkArtifact_type_mem rnd h i, mkArtifact_confidence_bounds rnd h i⟩

/-- C7 witness at the constant one-half draw stream. -/
theorem C7_offline_synthetic_bounds_witness :
    (∀ n : ℕ, 0 ≤ halfStream n ∧ halfStream n < 1)
    ∧ ((20 ≤ (runOfflineSegmentation halfStream).ruins_percentage
      ∧ (runOfflineSegmentation halfStream).ruins_percentage ≤ 60)
    ∧ (10 ≤ (runOfflineSegmentation halfStream).vegetation_percentage
      ∧ (runOfflineSegmentation halfStream).vegetation_percentage ≤ 40)
    ∧ (1 ≤ (runOfflineSegmentation halfStream).water_percentage
      ∧ (runOfflineSegmentation halfStream).water_percentage ≤ 6)
    ∧ (runOfflineSegmentation halfStream).success = true
    ∧ (3 ≤ (runOfflineDetection halfStream).artifacts.length
      ∧ (runOfflineDetection halfStream).artifacts.length ≤ 14)
    ∧ (runOfflineDetection halfStream).total_detected
        = (runOfflineDetection halfStream).artifacts.length
    ∧ (runOfflineDetection halfStream).success = true
    ∧ ∀ a ∈ (runOfflineDetection halfStream).artifacts,
        a.type ∈ artifactTypes ∧ 7 / 10 ≤ a.confidence ∧ a.confidence ≤ 1) := by
  have h : ∀ n : ℕ, 0 ≤ halfStream n ∧ halfStream n < 1 := fun n => by
    norm_num [halfStream]
  exact ⟨h, C7_offline_synthetic_bounds halfStream h⟩
